import Mathlib

/-!
Verification of the protocol/session core of the genai-toolbox server.

The Go code under verification builds a live object graph from declarative
configuration (`NewServer` in internal/server/server.go), gates tool
invocations behind pluggable auth services, and dispatches MCP
(JSON-RPC) `tools/call` requests as well as single-shot HTTP invocations.

Shallow embedding conventions:
* Go maps keyed by component name are embedded as association lists
  `List (String × α)` with first-match lookup (`mapLookup`).
* Fallible Go functions returning `(T, error)` are embedded as
  `Except String T`.
* External collaborators (backend drivers, token verifiers, statement
  execution) are embedded as outcome fields carried inside the configs,
  since their behavior is opaque to the core.
-/

/-- Rendering of Go's `%q` verb for the identifier-like names that occur in
the server's error messages (no escaping is needed for such names). -/
def goQuote (s : String) : String := "\"" ++ s ++ "\""

/-- First-match lookup in a name-keyed association list, the embedding of a
read from a Go `map[string]T`. -/
def mapLookup {α : Type} (k : String) : List (String × α) → Option α
  | [] => none
  | (n, v) :: rest => if n = k then some v else mapLookup k rest

/-- Evaluates to `true` exactly on `Except.ok`, the embedding of Go's
`err == nil`. -/
def exceptOk {ε α : Type} : Except ε α → Bool
  | .ok _ => true
  | .error _ => false

/-- JSON-ish argument values carried in invocation requests. -/
inductive JValue where
  | jnull : JValue
  | jbool : Bool → JValue
  | jnum : Int → JValue
  | jstr : String → JValue
  deriving DecidableEq

/-- A declared parameter slot of a tool (name and description; the
parameter-type system's finer validation rules are out of the core's
scope). -/
structure Param where
  pname : String
  description : String
  deriving DecidableEq

/-- Identity claims produced by a successful token verification. -/
abbrev Claims := List (String × String)

/-- A live backend source handle (`sources.Source`); its internals are
opaque to the server core. -/
structure Source where
  kind : String

/-- A live auth service (`auth.AuthService`): a token-verification
capability producing identity claims or an error. -/
structure AuthService where
  verify : String → Except String Claims

/-- A live tool (`tools.Tool`): declared parameters, the names of the auth
services any one of which may authorize a call, and the bound execution
against its source. -/
structure Tool where
  name : String
  description : String
  params : List Param
  authRequired : List String
  run : List (String × JValue) → Except String String

/-- A live toolset (`tools.Toolset`): a named group of resolved tools,
keyed by tool name. -/
structure Toolset where
  name : String
  tools : List (String × Tool)

/-- A source configuration; `init` is the outcome of the external driver's
`Initialize` call (server.go line 111), opaque to the core. -/
structure SourceConfig where
  kind : String
  init : Except String Source

/-- An auth service configuration; `init` is the outcome of the external
verifier's `Initialize` call (server.go line 135). -/
structure AuthServiceConfig where
  kind : String
  init : Except String AuthService

/-- A tool configuration: the declared source name, parameters, auth
requirements, and the (externally supplied) execution behavior once the
source is bound. -/
structure ToolConfig where
  kind : String
  source : String
  description : String
  statement : String
  authRequired : List String
  params : List Param
  runImpl : Source → List (String × JValue) → Except String String

/-- Modelled from the spec: the per-kind Tool `Initialize(sourcesMap)`
implementations live outside the core (only their call site, server.go
line 159, is in scope). Per §4.1 each "Tool's constructor receives the
full Source map and resolves its declared Source name, failing with a
descriptive error ... if resolution fails". -/
def ToolConfig.init (tc : ToolConfig) (n : String) (srcs : List (String × Source)) : Except String Tool :=
  match mapLookup tc.source srcs with
  | none => .error ("no source named " ++ goQuote tc.source ++ " configured")
  | some s =>
    .ok { name := n, description := tc.description, params := tc.params,
          authRequired := tc.authRequired, run := tc.runImpl s }

/-- A toolset configuration (`tools.ToolsetConfig{Name, ToolNames}`,
server.go line 180). -/
structure ToolsetConfig where
  name : String
  toolNames : List String

/-- Resolution of a toolset's tool-name list against the live tool map,
failing fast on the first unknown name. -/
def resolveTools (tm : List (String × Tool)) : List String → Except String (List (String × Tool))
  | [] => .ok []
  | n :: rest =>
    match mapLookup n tm with
    | none => .error ("tool " ++ goQuote n ++ " does not exist")
    | some t =>
      match resolveTools tm rest with
      | .error e => .error e
      | .ok l => .ok ((n, t) :: l)

/-- Modelled from the spec: `ToolsetConfig.Initialize(version, toolsMap)`
lives outside the core (its call site is server.go line 192). Per §4.1
each toolset "resolves its tool-name list against the Tool map, failing
fast on an unknown name". -/
def ToolsetConfig.init (tsc : ToolsetConfig) (tm : List (String × Tool)) : Except String Toolset :=
  match resolveTools tm tsc.toolNames with
  | .error e => .error e
  | .ok l => .ok { name := tsc.name, tools := l }

/-- The server configuration handed to `NewServer` (`ServerConfig`). -/
structure ServerConfig where
  version : String
  address : String
  port : Nat
  loggingFormat : String
  sourceConfigs : List (String × SourceConfig)
  authServiceConfigs : List (String × AuthServiceConfig)
  toolConfigs : List (String × ToolConfig)
  toolsetConfigs : List (String × ToolsetConfig)

/-- A TCP listener handle (`net.Listener`), identified by its address. -/
structure NetListener where
  addr : String

/-- The live server (`Server`): the four name-keyed component maps built by
`NewServer`, plus the listener slot used by `Listen`. -/
structure Server where
  version : String
  addr : String
  listener : Option NetListener
  sources : List (String × Source)
  authServices : List (String × AuthService)
  tools : List (String × Tool)
  toolsets : List (String × Toolset)

/-- One initialization stage of `NewServer`: initialize each named config
in order, stopping at the first failure (the Go loops at server.go lines
100-203 return on the first per-item error). -/
def initAll {C A : Type} (f : String → C → Except String A) :
    List (String × C) → Except String (List (String × A))
  | [] => .ok []
  | (n, c) :: rest =>
    match f n c with
    | .error e => .error e
    | .ok a =>
      match initAll f rest with
      | .error e => .error e
      | .ok m => .ok ((n, a) :: m)

/-- The message produced by
`fmt.Errorf("unable to initialize <kind> %q: %w", name, err)`. -/
def initErrMsg (kindStr n cause : String) : String :=
  "unable to initialize " ++ kindStr ++ " " ++ goQuote n ++ ": " ++ cause

/-- Error wrapping applied by each stage of `NewServer`. -/
def wrapInit {α : Type} (kindStr : String) (n : String) : Except String α → Except String α
  | .error e => .error (initErrMsg kindStr n e)
  | .ok a => .ok a

/-- The source stage of `NewServer` (server.go lines 100-122). -/
def sourceStep : String → SourceConfig → Except String Source :=
  fun n sc => wrapInit "source" n sc.init

/-- The auth-service stage of `NewServer` (server.go lines 124-146). -/
def authStep : String → AuthServiceConfig → Except String AuthService :=
  fun n ac => wrapInit "auth service" n ac.init

/-- The tool stage of `NewServer` (server.go lines 148-169); every tool
constructor receives the same complete source map. -/
def toolStep (sm : List (String × Source)) : String → ToolConfig → Except String Tool :=
  fun n tc => wrapInit "tool" n (ToolConfig.init tc n sm)

/-- The toolset stage of `NewServer` (server.go lines 182-203). -/
def toolsetStep (tm : List (String × Tool)) : String → ToolsetConfig → Except String Toolset :=
  fun n tsc => wrapInit "toolset" n (ToolsetConfig.init tsc tm)

/-- The toolset configs actually initialized by `NewServer`: the map-write
`cfg.ToolsetConfigs[""] = ToolsetConfig{Name: "", ToolNames: allToolNames}`
(server.go line 180) overwrites any explicitly declared `""` toolset, so
under lookup the effective map is the synthesized default consed onto the
remaining configs. -/
def effectiveToolsetConfigs (cfg : ServerConfig) (allToolNames : List String) :
    List (String × ToolsetConfig) :=
  ("", { name := "", toolNames := allToolNames }) :: cfg.toolsetConfigs.filter (fun p => p.1 ≠ "")

/-- The registry build, `NewServer` (server.go lines 55-240): validate the
logging format, then initialize sources, auth services, tools and
toolsets in that order, aborting on the first failure. Telemetry and
router setup, which live outside the core, are modelled as infallible. -/
def NewServer (cfg : ServerConfig) : Except String Server :=
  if cfg.loggingFormat = "json" ∨ cfg.loggingFormat = "standard" then
    match initAll sourceStep cfg.sourceConfigs with
    | .error e => .error e
    | .ok sourcesMap =>
      match initAll authStep cfg.authServiceConfigs with
      | .error e => .error e
      | .ok authServicesMap =>
        match initAll (toolStep sourcesMap) cfg.toolConfigs with
        | .error e => .error e
        | .ok toolsMap =>
          match initAll (toolsetStep toolsMap)
              (effectiveToolsetConfigs cfg (toolsMap.map Prod.fst)) with
          | .error e => .error e
          | .ok toolsetsMap =>
            .ok { version := cfg.version,
                  addr := cfg.address ++ ":" ++ toString cfg.port,
                  listener := none,
                  sources := sourcesMap,
                  authServices := authServicesMap,
                  tools := toolsMap,
                  toolsets := toolsetsMap }
  else
    .error ("invalid Logging format: " ++ goQuote cfg.loggingFormat)

/-! ### Helper lemmas about the stage combinators -/

theorem wrapInit_ok {α : Type} {kindStr n : String} {r : Except String α} {a : α}
    (h : wrapInit kindStr n r = .ok a) : r = .ok a := by
  cases r with
  | ok b => simpa [wrapInit] using h
  | error e => simp [wrapInit] at h

theorem wrapInit_error {α : Type} {kindStr n : String} {r : Except String α} {e : String}
    (h : wrapInit kindStr n r = .error e) :
    ∃ c, r = .error c ∧ e = initErrMsg kindStr n c := by
  cases r with
  | ok b => simp [wrapInit] at h
  | error c =>
    refine ⟨c, rfl, ?_⟩
    simpa [wrapInit] using h.symm

theorem exceptOk_wrapInit {α : Type} (kindStr n : String) (r : Except String α) :
    exceptOk (wrapInit kindStr n r) = exceptOk r := by
  cases r <;> simp [wrapInit, exceptOk]

theorem initAll_ok_keys {C A : Type} {f : String → C → Except String A}
    {l : List (String × C)} {m : List (String × A)}
    (h : initAll f l = .ok m) : m.map Prod.fst = l.map Prod.fst := by
  induction l generalizing m with
  | nil =>
    simp [initAll] at h
    simp [← h]
  | cons p rest ih =>
    obtain ⟨n, c⟩ := p
    simp only [initAll] at h
    cases hf : f n c with
    | error e => rw [hf] at h; exact absurd h (by simp)
    | ok a =>
      rw [hf] at h
      cases hr : initAll f rest with
      | error e => rw [hr] at h; exact absurd h (by simp)
      | ok m' =>
        rw [hr] at h
        simp only [Except.ok.injEq] at h
        subst h
        simp [ih hr]

theorem initAll_ok_forall {C A : Type} {f : String → C → Except String A}
    {l : List (String × C)} {m : List (String × A)}
    (h : initAll f l = .ok m) : ∀ p ∈ l, ∃ a, f p.1 p.2 = .ok a := by
  induction l generalizing m with
  | nil => intro p hp; exact absurd hp (List.not_mem_nil p)
  | cons q rest ih =>
    obtain ⟨n, c⟩ := q
    simp only [initAll] at h
    cases hf : f n c with
    | error e => rw [hf] at h; exact absurd h (by simp)
    | ok a =>
      rw [hf] at h
      cases hr : initAll f rest with
      | error e => rw [hr] at h; exact absurd h (by simp)
      | ok m' =>
        intro p hp
        rcases List.mem_cons.mp hp with hhd | htl
        · subst hhd; exact ⟨a, hf⟩
        · exact ih hr p htl

theorem initAll_error_mem {C A : Type} {f : String → C → Except String A}
    {l : List (String × C)} {e : String}
    (h : initAll f l = .error e) : ∃ p ∈ l, f p.1 p.2 = .error e := by
  induction l with
  | nil => simp [initAll] at h
  | cons q rest ih =>
    obtain ⟨n, c⟩ := q
    simp only [initAll] at h
    cases hf : f n c with
    | error e' =>
      rw [hf] at h
      simp only [Except.error.injEq] at h
      subst h
      exact ⟨(n, c), List.mem_cons_self _ _, hf⟩
    | ok a =>
      rw [hf] at h
      cases hr : initAll f rest with
      | error e' =>
        rw [hr] at h
        simp only [Except.error.injEq] at h
        subst h
        obtain ⟨p, hp, hpe⟩ := ih hr
        exact ⟨p, List.mem_cons_of_mem _ hp, hpe⟩
      | ok m' => rw [hr] at h; exact absurd h (by simp)

theorem initAll_mem_error {C A : Type} {f : String → C → Except String A}
    {l : List (String × C)} {p : String × C} {e : String}
    (hp : p ∈ l) (he : f p.1 p.2 = .error e) :
    ∃ e', initAll f l = .error e' := by
  induction l with
  | nil => exact absurd hp (List.not_mem_nil p)
  | cons q rest ih =>
    obtain ⟨n, c⟩ := q
    rcases List.mem_cons.mp hp with hhd | htl
    · subst hhd
      exact ⟨e, by simp [initAll, he]⟩
    · cases hf : f n c with
      | error e' => exact ⟨e', by simp [initAll, hf]⟩
      | ok a =>
        obtain ⟨e', he'⟩ := ih htl
        exact ⟨e', by simp [initAll, hf, he']⟩

theorem initAll_cons_ok {C A : Type} {f : String → C → Except String A}
    {n : String} {c : C} {rest : List (String × C)} {m : List (String × A)}
    (h : initAll f ((n, c) :: rest) = .ok m) :
    ∃ a m', f n c = .ok a ∧ initAll f rest = .ok m' ∧ m = (n, a) :: m' := by
  simp only [initAll] at h
  cases hf : f n c with
  | error e => rw [hf] at h; exact absurd h (by simp)
  | ok a =>
    rw [hf] at h
    cases hr : initAll f rest with
    | error e => rw [hr] at h; exact absurd h (by simp)
    | ok m' =>
      rw [hr] at h
      simp only [Except.ok.injEq] at h
      exact ⟨a, m', rfl, rfl, h.symm⟩

theorem mapLookup_isSome_of_mem_keys {α : Type} {n : String} {l : List (String × α)}
    (h : n ∈ l.map Prod.fst) : ∃ v, mapLookup n l = some v := by
  induction l with
  | nil => simp at h
  | cons p rest ih =>
    obtain ⟨k, v⟩ := p
    by_cases hk : k = n
    · exact ⟨v, by simp [mapLookup, hk]⟩
    · have : n ∈ rest.map Prod.fst := by
        rcases List.mem_cons.mp h with hh | ht
        · exact absurd hh.symm (by simpa using hk)
        · exact ht
      obtain ⟨w, hw⟩ := ih this
      exact ⟨w, by simp [mapLookup, hk, hw]⟩

theorem resolveTools_ok_of_keys {tm : List (String × Tool)} {names : List String}
    (h : ∀ n ∈ names, n ∈ tm.map Prod.fst) :
    ∃ l, resolveTools tm names = .ok l ∧ l.map Prod.fst = names := by
  induction names with
  | nil => exact ⟨[], by simp [resolveTools]⟩
  | cons n rest ih =>
    obtain ⟨t, ht⟩ := mapLookup_isSome_of_mem_keys (h n (List.mem_cons_self n rest))
    obtain ⟨l, hl, hkeys⟩ := ih (fun m hm => h m (List.mem_cons_of_mem n hm))
    exact ⟨(n, t) :: l, by simp [resolveTools, ht, hl], by simp [hkeys]⟩

/-- Inversion of a successful `NewServer` build: the logging format was
valid and all four stages ran to completion, feeding each stage's full
output map to the next. -/
theorem newServer_ok_stages {cfg : ServerConfig} {s : Server}
    (h : NewServer cfg = .ok s) :
    (cfg.loggingFormat = "json" ∨ cfg.loggingFormat = "standard") ∧
    ∃ sm am,
      initAll sourceStep cfg.sourceConfigs = .ok sm ∧
      initAll authStep cfg.authServiceConfigs = .ok am ∧
      initAll (toolStep sm) cfg.toolConfigs = .ok s.tools ∧
      initAll (toolsetStep s.tools)
        (effectiveToolsetConfigs cfg (s.tools.map Prod.fst)) = .ok s.toolsets ∧
      s.sources = sm ∧ s.authServices = am := by
  by_cases hfmt : cfg.loggingFormat = "json" ∨ cfg.loggingFormat = "standard"
  · refine ⟨hfmt, ?_⟩
    rw [NewServer, if_pos hfmt] at h
    split at h
    next e heq => exact absurd h (by simp)
    next sm heq =>
      split at h
      next e heq2 => exact absurd h (by simp)
      next am heq2 =>
        split at h
        next e heq3 => exact absurd h (by simp)
        next tm heq3 =>
          split at h
          next e heq4 => exact absurd h (by simp)
          next tsm heq4 =>
            simp only [Except.ok.injEq] at h
            subst h
            exact ⟨sm, am, heq, heq2, heq3, heq4, rfl, rfl⟩
  · rw [NewServer, if_neg hfmt] at h
    exact absurd h (by simp)

/-- C1: after a successful Registry build, the toolset map contains a
toolset named `""` whose tool-name list is exactly the full list of
configured tool names — for every input configuration, including ones
that explicitly declare a toolset named `""` (the build overwrites it). -/
theorem registry_default_toolset (cfg : ServerConfig) (s : Server)
    (h : NewServer cfg = .ok s) :
    ∃ ts, mapLookup "" s.toolsets = some ts ∧
      ts.tools.map Prod.fst = cfg.toolConfigs.map Prod.fst := by
  obtain ⟨-, sm, am, hsm, ham, htm, hts, -, -⟩ := newServer_ok_stages h
  have htoolKeys : s.tools.map Prod.fst = cfg.toolConfigs.map Prod.fst :=
    initAll_ok_keys htm
  rw [effectiveToolsetConfigs] at hts
  obtain ⟨ts, rest, hstep, hrest, hcons⟩ := initAll_cons_ok hts
  obtain ⟨l, hl, hlkeys⟩ :=
    @resolveTools_ok_of_keys s.tools (s.tools.map Prod.fst) (fun n hn => hn)
  have hinit : ToolsetConfig.init { name := "", toolNames := s.tools.map Prod.fst } s.tools
      = .ok { name := "", tools := l } := by
    rw [ToolsetConfig.init, hl]
  have hstep' : toolsetStep s.tools "" { name := "", toolNames := s.tools.map Prod.fst }
      = .ok { name := "", tools := l } := by
    rw [toolsetStep, hinit, wrapInit]
  rw [hstep'] at hstep
  have hts_eq : ts = { name := "", tools := l } := by
    simpa using hstep.symm
  refine ⟨ts, ?_, ?_⟩
  · rw [hcons]; simp [mapLookup]
  · rw [hts_eq]
    simpa [hlkeys] using htoolKeys

/-- C2: registry construction is all-or-nothing — if any single source,
auth service, tool, or (non-overwritten) toolset fails to initialize,
`NewServer` does not return a server. -/
theorem registry_build_all_or_nothing (cfg : ServerConfig)
    (h : (∃ p ∈ cfg.sourceConfigs, exceptOk p.2.init = false) ∨
         (∃ p ∈ cfg.authServiceConfigs, exceptOk p.2.init = false) ∨
         (∃ sm, initAll sourceStep cfg.sourceConfigs = .ok sm ∧
            ∃ p ∈ cfg.toolConfigs, exceptOk (ToolConfig.init p.2 p.1 sm) = false) ∨
         (∃ sm tm, initAll sourceStep cfg.sourceConfigs = .ok sm ∧
            initAll (toolStep sm) cfg.toolConfigs = .ok tm ∧
            ∃ p ∈ cfg.toolsetConfigs, p.1 ≠ "" ∧
              exceptOk (ToolsetConfig.init p.2 tm) = false)) :
    exceptOk (NewServer cfg) = false := by
  cases hres : NewServer cfg with
  | error e => rfl
  | ok s =>
    exfalso
    obtain ⟨-, sm, am, hsm, ham, htm, hts, -, -⟩ := newServer_ok_stages hres
    rcases h with hsrc | hauth | htool | htoolset
    · obtain ⟨p, hp, hpe⟩ := hsrc
      obtain ⟨a, ha⟩ := initAll_ok_forall hsm p hp
      have := wrapInit_ok ha
      rw [this] at hpe
      simp [exceptOk] at hpe
    · obtain ⟨p, hp, hpe⟩ := hauth
      obtain ⟨a, ha⟩ := initAll_ok_forall ham p hp
      have := wrapInit_ok ha
      rw [this] at hpe
      simp [exceptOk] at hpe
    · obtain ⟨sm', hsm', p, hp, hpe⟩ := htool
      have hsm_eq : sm' = sm := by
        have := hsm'.symm.trans hsm
        simpa using this
      subst hsm_eq
      obtain ⟨a, ha⟩ := initAll_ok_forall htm p hp
      have := wrapInit_ok ha
      rw [this] at hpe
      simp [exceptOk] at hpe
    · obtain ⟨sm', tm', hsm', htm', p, hp, hpne, hpe⟩ := htoolset
      have hsm_eq : sm' = sm := by
        have := hsm'.symm.trans hsm
        simpa using this
      subst hsm_eq
      have htm_eq : tm' = s.tools := by
        have := htm'.symm.trans htm
        simpa using this
      subst htm_eq
      have hpmem : p ∈ effectiveToolsetConfigs cfg (s.tools.map Prod.fst) :=
        List.mem_cons_of_mem _ (List.mem_filter.mpr ⟨hp, by simpa using hpne⟩)
      obtain ⟨a, ha⟩ := initAll_ok_forall hts p hpmem
      have := wrapInit_ok ha
      rw [this] at hpe
      simp [exceptOk] at hpe

/-- C3: the build order is mandatory — a successful build initialized
every source (feeding the complete source map to every tool constructor)
before building tools, and every tool before building toolsets; and when
a tool's declared source name does not resolve, the build fails with
`unable to initialize tool %q` naming the tool and wrapping the cause. -/
theorem registry_build_order_and_tool_errors (cfg : ServerConfig) :
    (∀ s, NewServer cfg = .ok s →
      ∃ sm, initAll sourceStep cfg.sourceConfigs = .ok sm ∧
        sm.map Prod.fst = cfg.sourceConfigs.map Prod.fst ∧
        initAll (toolStep sm) cfg.toolConfigs = .ok s.tools ∧
        initAll (toolsetStep s.tools)
          (effectiveToolsetConfigs cfg (s.tools.map Prod.fst)) = .ok s.toolsets) ∧
    (∀ sm am e,
      (cfg.loggingFormat = "json" ∨ cfg.loggingFormat = "standard") →
      initAll sourceStep cfg.sourceConfigs = .ok sm →
      initAll authStep cfg.authServiceConfigs = .ok am →
      initAll (toolStep sm) cfg.toolConfigs = .error e →
      NewServer cfg = .error e ∧
      ∃ n tc, (n, tc) ∈ cfg.toolConfigs ∧ mapLookup tc.source sm = none ∧
        e = initErrMsg "tool" n
              ("no source named " ++ goQuote tc.source ++ " configured")) := by
  constructor
  · intro s h
    obtain ⟨-, sm, am, hsm, ham, htm, hts, -, -⟩ := newServer_ok_stages h
    exact ⟨sm, hsm, initAll_ok_keys hsm, htm, hts⟩
  · intro sm am e hfmt hsm ham htm
    constructor
    · rw [NewServer, if_pos hfmt, hsm]
      simp only
      rw [ham]
      simp only
      rw [htm]
    · obtain ⟨p, hp, hpe⟩ := initAll_error_mem htm
      obtain ⟨c, hc, hec⟩ := wrapInit_error hpe
      obtain ⟨n, tc⟩ := p
      refine ⟨n, tc, hp, ?_, ?_⟩
      · rw [ToolConfig.init] at hc
        cases hlk : mapLookup tc.source sm with
        | none => rfl
        | some src => rw [hlk] at hc; exact absurd hc (by simp)
      · rw [ToolConfig.init] at hc
        cases hlk : mapLookup tc.source sm with
        | none =>
          rw [hlk] at hc
          simp only [Except.error.injEq] at hc
          rw [hec, ← hc]
        | some src => rw [hlk] at hc; exact absurd hc (by simp)

/-! ### Concrete configurations used by the witnesses -/

/-- A demo source config whose external driver initializes successfully. -/
def demoSource : SourceConfig :=
  { kind := "cloud-sql-postgres", init := .ok { kind := "cloud-sql-postgres" } }

/-- A demo verifier accepting exactly the token `"valid-token"`. -/
def demoVerifier : AuthService :=
  { verify := fun tok =>
      if tok = "valid-token" then .ok [("sub", "alice")] else .error "invalid token" }

/-- A demo tool config bound to the named source. -/
def demoToolCfg (srcName : String) : ToolConfig :=
  { kind := "postgres-sql", source := srcName,
    description := "Simple tool to test end to end functionality.",
    statement := "SELECT 1;", authRequired := [], params := [],
    runImpl := fun _ _ => .ok "[[1]]" }

/-- A demo configuration that also declares an explicit toolset named `""`
(which the build overwrites with the synthesized default). -/
def demoCfg : ServerConfig :=
  { version := "0.0.1", address := "127.0.0.1", port := 5000,
    loggingFormat := "standard",
    sourceConfigs := [("my-pg-instance", demoSource)],
    authServiceConfigs :=
      [("my-google-auth", { kind := "google", init := .ok demoVerifier })],
    toolConfigs :=
      [("my-simple-tool", demoToolCfg "my-pg-instance"),
       ("my-param-tool",
        { demoToolCfg "my-pg-instance" with
            params := [{ pname := "id", description := "user id" },
                       { pname := "name", description := "user name" }] })],
    toolsetConfigs := [("", { name := "", toolNames := ["my-simple-tool"] })] }

/-- A server with no components, used only as a fallback value. -/
def emptyServer : Server :=
  { version := "", addr := "", listener := none,
    sources := [], authServices := [], tools := [], toolsets := [] }

/-- The server built from `demoCfg`. -/
def demoServer : Server :=
  match NewServer demoCfg with
  | .ok s => s
  | .error _ => emptyServer

/-- The toolset registered under the name `""` in `demoServer`. -/
def demoDefaultToolset : Toolset :=
  (mapLookup "" demoServer.toolsets).getD { name := "", tools := [] }

/-- Witness for C1: the demo build succeeds, its `""` toolset exists, and
that toolset lists exactly the configured tool names even though the
configuration declared its own (smaller) `""` toolset. -/
theorem registry_default_toolset_witness :
    NewServer demoCfg = .ok demoServer ∧
    mapLookup "" demoServer.toolsets = some demoDefaultToolset ∧
    demoDefaultToolset.tools.map Prod.fst = ["my-simple-tool", "my-param-tool"] := by
  obtain ⟨ts, h1, h2⟩ := registry_default_toolset demoCfg demoServer rfl
  have hts : demoDefaultToolset = ts := by
    rw [demoDefaultToolset, h1]
    rfl
  refine ⟨rfl, ?_, ?_⟩
  · rw [h1, hts]
  · rw [hts, h2]
    rfl

/-- A tool config referencing a source name that is not configured. -/
def badToolCfg : ToolConfig :=
  { kind := "postgres-sql", source := "no-such-source", description := "broken",
    statement := "SELECT 1;", authRequired := [], params := [],
    runImpl := fun _ _ => .ok "[[1]]" }

/-- A configuration containing a tool whose initialization fails because
its declared source does not resolve. -/
def badCfg : ServerConfig :=
  { version := "0.0.1", address := "127.0.0.1", port := 5000,
    loggingFormat := "standard",
    sourceConfigs := [("my-pg-instance", demoSource)],
    authServiceConfigs := [],
    toolConfigs := [("my-bad-tool", badToolCfg)],
    toolsetConfigs := [] }

/-- Witness for C2: with one failing tool config, the whole build fails. -/
theorem registry_build_all_or_nothing_witness :
    exceptOk (NewServer badCfg) = false := by
  apply registry_build_all_or_nothing
  refine Or.inr (Or.inr (Or.inl
    ⟨[("my-pg-instance", { kind := "cloud-sql-postgres" })], rfl,
     ("my-bad-tool", badToolCfg), ?_, rfl⟩))
  simp [badCfg]

/-- Witness for C3: the failed build surfaces exactly the wrapped
`unable to initialize tool %q` message naming the tool and the cause. -/
theorem registry_build_order_witness :
    NewServer badCfg =
      .error (initErrMsg "tool" "my-bad-tool"
        ("no source named " ++ goQuote "no-such-source" ++ " configured")) := by
  exact ((registry_build_order_and_tool_errors badCfg).2
    [("my-pg-instance", { kind := "cloud-sql-postgres" })] [] _
    (Or.inr rfl) rfl rfl rfl).1

/-! ### Auth gate, invocation pipeline and protocol dispatcher

The implementations of these components are outside the visible source
(only their end-to-end tests, `RunToolInvokeTest` and
`RunMCPToolCallMethod`, are), so they are modelled from the spec
(§4.2-§4.4, §6) and checked against the behavior those tests pin down. -/

/-- Modelled from the spec: the credential walk of the Auth Gate (§4.2) is
not in the visible source. For each required auth-service name in order,
if the service exists and a credential header `<name>_token` is present,
verify it; succeed on the first successful verification; a failure from
one service does not prevent trying the next. -/
def firstVerified (svcs : List (String × AuthService))
    (headers : List (String × String)) : List String → Option Claims
  | [] => none
  | n :: rest =>
    match mapLookup n svcs with
    | none => firstVerified svcs headers rest
    | some svc =>
      match mapLookup (n ++ "_token") headers with
      | none => firstVerified svcs headers rest
      | some tok =>
        match svc.verify tok with
        | .ok claims => some claims
        | .error _ => firstVerified svcs headers rest

/-- Modelled from the spec: `Authorize(tool, presentedCredentials)` (§4.2)
is not in the visible source. An empty `AuthRequired` list authorizes
unconditionally with empty claims; otherwise the requirements are OR'd
via `firstVerified`. `none` is the failure outcome. -/
def authGate (svcs : List (String × AuthService)) (required : List String)
    (headers : List (String × String)) : Option Claims :=
  if required = [] then some [] else firstVerified svcs headers required

theorem firstVerified_isSome_iff (svcs : List (String × AuthService))
    (headers : List (String × String)) (req : List String) :
    (firstVerified svcs headers req).isSome = true ↔
      ∃ n ∈ req, ∃ svc, mapLookup n svcs = some svc ∧
        ∃ tok, mapLookup (n ++ "_token") headers = some tok ∧
          exceptOk (svc.verify tok) = true := by
  induction req with
  | nil => simp [firstVerified]
  | cons n rest ih =>
    simp only [firstVerified]
    cases hsvc : mapLookup n svcs with
    | none =>
      dsimp only
      rw [ih]
      constructor
      · rintro ⟨m, hm, rest'⟩
        exact ⟨m, List.mem_cons_of_mem _ hm, rest'⟩
      · rintro ⟨m, hm, svc, hsvc2, rest'⟩
        rcases List.mem_cons.mp hm with h | h
        · subst h; rw [hsvc] at hsvc2; cases hsvc2
        · exact ⟨m, h, svc, hsvc2, rest'⟩
    | some svc =>
      dsimp only
      cases htok : mapLookup (n ++ "_token") headers with
      | none =>
        dsimp only
        rw [ih]
        constructor
        · rintro ⟨m, hm, rest'⟩
          exact ⟨m, List.mem_cons_of_mem _ hm, rest'⟩
        · rintro ⟨m, hm, svc', hsvc2, tok, htok2, hv⟩
          rcases List.mem_cons.mp hm with h | h
          · subst h; rw [htok] at htok2; cases htok2
          · exact ⟨m, h, svc', hsvc2, tok, htok2, hv⟩
      | some tok =>
        dsimp only
        cases hv : svc.verify tok with
        | ok claims =>
          dsimp only
          simp only [Option.isSome_some, true_iff]
          exact ⟨n, List.mem_cons_self n rest, svc, hsvc, tok, htok,
            by simp [exceptOk, hv]⟩
        | error e =>
          dsimp only
          rw [ih]
          constructor
          · rintro ⟨m, hm, rest'⟩
            exact ⟨m, List.mem_cons_of_mem _ hm, rest'⟩
          · rintro ⟨m, hm, svc', hsvc2, tok', htok2, hv2⟩
            rcases List.mem_cons.mp hm with h | h
            · subst h
              rw [hsvc] at hsvc2
              rw [htok] at htok2
              cases hsvc2
              cases htok2
              rw [hv] at hv2
              simp [exceptOk] at hv2
            · exact ⟨m, h, svc', hsvc2, tok', htok2, hv2⟩

/-- C4: the Auth Gate authorizes a call iff the tool's `AuthRequired` set
is empty, or some listed auth service both exists, has a presented
`<name>_token` credential, and verifies it — the requirements are OR'd,
and one service's failure never masks another's success; with no
presented or no verifying credential among the listed services, the gate
fails. -/
theorem auth_gate_or_semantics (svcs : List (String × AuthService))
    (required : List String) (headers : List (String × String)) :
    (authGate svcs required headers).isSome = true ↔
      (required = [] ∨
        ∃ n ∈ required, ∃ svc, mapLookup n svcs = some svc ∧
          ∃ tok, mapLookup (n ++ "_token") headers = some tok ∧
            exceptOk (svc.verify tok) = true) := by
  rw [authGate]
  by_cases hreq : required = []
  · simp [hreq]
  · rw [if_neg hreq, firstVerified_isSome_iff]
    constructor
    · exact fun h => Or.inr h
    · rintro (h | h)
      · exact absurd h hreq
      · exact h

/-- A JSON-RPC request/response id: a string, a number, or null. -/
inductive RpcId where
  | str : String → RpcId
  | num : Int → RpcId
  | null : RpcId
  deriving DecidableEq

/-- A JSON-RPC error object (code and message). -/
structure RpcError where
  code : Int
  message : String
  deriving DecidableEq

/-- A JSON-RPC response: a result or an error, each carrying the id of the
request it answers. -/
inductive RpcResponse where
  | ok : RpcId → String → RpcResponse
  | err : RpcId → RpcError → RpcResponse
  deriving DecidableEq

/-- Modelled from the spec: argument validation of the Invocation Pipeline
(§4.3) is not in the visible source. Walk the declared parameters in
order and fail on the first whose argument is absent, with the message
the MCP tests pin down: `parameter "<name>" is required`. -/
def parseParams (ps : List Param) (args : List (String × JValue)) :
    Except String (List (String × JValue)) :=
  match ps with
  | [] => .ok []
  | p :: rest =>
    match mapLookup p.pname args with
    | none => .error ("parameter " ++ goQuote p.pname ++ " is required")
    | some v =>
      match parseParams rest args with
      | .error e => .error e
      | .ok l => .ok ((p.pname, v) :: l)

/-- The first declared parameter (in declaration order) for which no
argument is present. -/
def firstMissing (args : List (String × JValue)) : List Param → Option Param
  | [] => none
  | p :: rest =>
    match mapLookup p.pname args with
    | none => some p
    | some _ => firstMissing args rest

theorem firstMissing_spec {args : List (String × JValue)} {ps : List Param} {p : Param}
    (h : firstMissing args ps = some p) :
    p ∈ ps ∧ mapLookup p.pname args = none ∧
      parseParams ps args = .error ("parameter " ++ goQuote p.pname ++ " is required") := by
  induction ps with
  | nil => simp [firstMissing] at h
  | cons q rest ih =>
    rw [firstMissing] at h
    cases hq : mapLookup q.pname args with
    | none =>
      rw [hq] at h
      simp only [Option.some.injEq] at h
      subst h
      exact ⟨List.mem_cons_self q rest, hq, by rw [parseParams, hq]⟩
    | some v =>
      rw [hq] at h
      obtain ⟨hmem, hnone, herr⟩ := ih h
      refine ⟨List.mem_cons_of_mem q hmem, hnone, ?_⟩
      rw [parseParams, hq, herr]

/-- Modelled from the spec: the MCP dispatcher's `tools/call` handling
(§4.4) is not in the visible source (only `RunMCPToolCallMethod`, which
tests it, is). Resolve the tool in the live tool map, run the Auth Gate,
validate arguments, execute, and map each failure to the JSON-RPC error
code and message the spec and the tests prescribe, echoing the request
id on every response. -/
def toolsCall (tools : List (String × Tool)) (svcs : List (String × AuthService))
    (headers : List (String × String)) (id : RpcId) (toolName : String)
    (args : List (String × JValue)) : RpcResponse :=
  match mapLookup toolName tools with
  | none =>
    .err id { code := -32602,
              message := "invalid tool name: tool with name " ++ goQuote toolName ++
                " does not exist" }
  | some t =>
    match authGate svcs t.authRequired headers with
    | none =>
      .err id { code := -32600,
                message := "unauthorized Tool call: `authRequired` is set for the target Tool" }
    | some _ =>
      match parseParams t.params args with
      | .error e =>
        .err id { code := -32602, message := "provided parameters were invalid: " ++ e }
      | .ok vals =>
        match t.run vals with
        | .error e => .err id { code := -32603, message := e }
        | .ok r => .ok id r

/-- C5: a `tools/call` naming a tool absent from the live tool map yields
a JSON-RPC error with code `-32602`, the exact message
`invalid tool name: tool with name "<name>" does not exist`, and the
request's id echoed verbatim. -/
theorem mcp_tools_call_unknown_tool (tools : List (String × Tool))
    (svcs : List (String × AuthService)) (headers : List (String × String))
    (id : RpcId) (toolName : String) (args : List (String × JValue))
    (h : mapLookup toolName tools = none) :
    toolsCall tools svcs headers id toolName args =
      .err id { code := -32602,
                message := "invalid tool name: tool with name " ++ goQuote toolName ++
                  " does not exist" } := by
  rw [toolsCall.eq_def, h]

/-- C6: a `tools/call` on an existing, authorized tool whose arguments
omit a required declared parameter yields a JSON-RPC error with code
`-32602` whose message names the (first) missing parameter as
`provided parameters were invalid: parameter "<name>" is required`, with
the request's id echoed. -/
theorem mcp_tools_call_missing_param (tools : List (String × Tool))
    (svcs : List (String × AuthService)) (headers : List (String × String))
    (id : RpcId) (toolName : String) (args : List (String × JValue))
    (t : Tool) (p : Param)
    (htool : mapLookup toolName tools = some t)
    (hauth : (authGate svcs t.authRequired headers).isSome = true)
    (hmiss : firstMissing args t.params = some p) :
    p ∈ t.params ∧ mapLookup p.pname args = none ∧
    toolsCall tools svcs headers id toolName args =
      .err id { code := -32602,
                message := "provided parameters were invalid: " ++
                  ("parameter " ++ goQuote p.pname ++ " is required") } := by
  obtain ⟨hmem, hnone, herr⟩ := firstMissing_spec hmiss
  refine ⟨hmem, hnone, ?_⟩
  obtain ⟨c, hc⟩ := Option.isSome_iff_exists.mp hauth
  rw [toolsCall.eq_def, htool]
  dsimp only
  rw [hc]
  dsimp only
  rw [herr]

/-- C7: a `tools/call` on an existing tool with a non-empty `AuthRequired`
set for which the Auth Gate fails yields a JSON-RPC error with code
`-32600` and exactly the message
``unauthorized Tool call: `authRequired` is set for the target Tool``,
with the request's id echoed. -/
theorem mcp_tools_call_unauthorized (tools : List (String × Tool))
    (svcs : List (String × AuthService)) (headers : List (String × String))
    (id : RpcId) (toolName : String) (args : List (String × JValue)) (t : Tool)
    (htool : mapLookup toolName tools = some t)
    (hne : t.authRequired ≠ [])
    (hauth : authGate svcs t.authRequired headers = none) :
    toolsCall tools svcs headers id toolName args =
      .err id { code := -32600,
                message := "unauthorized Tool call: `authRequired` is set for the target Tool" } := by
  rw [toolsCall.eq_def, htool]
  dsimp only
  rw [hauth]

/-- Result of a single-shot HTTP tool invocation: `200 {result}` on
success, or a non-200 status with an error body. -/
inductive HttpResult where
  | ok : String → HttpResult
  | err : Nat → String → HttpResult
  deriving DecidableEq

/-- Modelled from the spec: the HTTP single-shot adapter for
`POST /api/tool/{name}/invoke` (§4.6, §6) is not in the visible source
(only `RunToolInvokeTest`, which tests it, is). It runs the same
resolve → Auth Gate → validate → execute pipeline as the MCP dispatcher,
reporting failures as non-200 statuses (modelled as 404 unknown tool,
401 auth failure, 400 validation failure, 500 execution failure). -/
def httpInvoke (tools : List (String × Tool)) (svcs : List (String × AuthService))
    (headers : List (String × String)) (toolName : String)
    (args : List (String × JValue)) : HttpResult :=
  match mapLookup toolName tools with
  | none =>
    .err 404 ("invalid tool name: tool with name " ++ goQuote toolName ++ " does not exist")
  | some t =>
    match authGate svcs t.authRequired headers with
    | none =>
      .err 401 ("tool invocation not authorized: auth is required for tool " ++
        goQuote toolName)
    | some _ =>
      match parseParams t.params args with
      | .error e => .err 400 ("provided parameters were invalid: " ++ e)
      | .ok vals =>
        match t.run vals with
        | .error e => .err 500 ("error while invoking tool: " ++ e)
        | .ok r => .ok r

/-- The transport-agnostic classification of an invocation outcome. -/
inductive OutcomeKind where
  | success : OutcomeKind
  | authFailure : OutcomeKind
  | invalidParams : OutcomeKind
  | execFailure : OutcomeKind
  deriving DecidableEq

/-- Classification of an HTTP invocation outcome by status code. -/
def classifyHttp : HttpResult → OutcomeKind
  | .ok _ => .success
  | .err status _ =>
    if status = 401 then .authFailure
    else if status = 400 ∨ status = 404 then .invalidParams
    else .execFailure

/-- Classification of an MCP `tools/call` outcome by JSON-RPC error code
(`-32600` invalid request / auth, `-32602` invalid params including an
unknown tool name, `-32603` internal execution error). -/
def classifyMcp : RpcResponse → OutcomeKind
  | .ok _ _ => .success
  | .err _ e =>
    if e.code = -32600 then .authFailure
    else if e.code = -32602 then .invalidParams
    else .execFailure

/-- C8: for every tool, argument set and credential set, the HTTP
single-shot invocation and the MCP `tools/call` dispatch yield the same
success/failure classification — both succeed, or both fail in the same
class (auth, validation, or execution). -/
theorem http_mcp_same_classification (tools : List (String × Tool))
    (svcs : List (String × AuthService)) (headers : List (String × String))
    (id : RpcId) (toolName : String) (args : List (String × JValue)) :
    classifyHttp (httpInvoke tools svcs headers toolName args) =
      classifyMcp (toolsCall tools svcs headers id toolName args) := by
  rw [httpInvoke.eq_def, toolsCall.eq_def]
  cases mapLookup toolName tools with
  | none => rfl
  | some t =>
    dsimp only
    cases authGate svcs t.authRequired headers with
    | none => rfl
    | some c =>
      dsimp only
      cases parseParams t.params args with
      | error e => rfl
      | ok vals =>
        dsimp only
        cases t.run vals with
        | error e => rfl
        | ok r => rfl

/-- The `my-param-tool` of the integration tests: two required
parameters, no auth. -/
def paramTool : Tool :=
  { name := "my-param-tool", description := "Tool with parameters.",
    params := [{ pname := "id", description := "user id" },
               { pname := "name", description := "user name" }],
    authRequired := [],
    run := fun _ => .ok "[[3,\"Alice\"]]" }

/-- The `my-auth-required-tool` of the integration tests: no parameters,
auth required via `my-google-auth`. -/
def authRequiredTool : Tool :=
  { name := "my-auth-required-tool", description := "Tool requiring auth.",
    params := [], authRequired := ["my-google-auth"],
    run := fun _ => .ok "[[1]]" }

/-- A live tool map mirroring the integration-test configuration. -/
def mcpToolMap : List (String × Tool) :=
  [("my-param-tool", paramTool), ("my-auth-required-tool", authRequiredTool)]

/-- A live auth-service map with the `my-google-auth` verifier. -/
def mcpSvcMap : List (String × AuthService) := [("my-google-auth", demoVerifier)]

/-- Witness for C5: calling the nonexistent tool `foo` produces exactly
the error the MCP test expects, echoing the id `invalid-tool`. -/
theorem mcp_tools_call_unknown_tool_witness :
    toolsCall mcpToolMap mcpSvcMap [] (.str "invalid-tool") "foo" [] =
      .err (.str "invalid-tool")
        { code := -32602,
          message := "invalid tool name: tool with name \"foo\" does not exist" } := by
  rw [mcp_tools_call_unknown_tool mcpToolMap mcpSvcMap [] (.str "invalid-tool") "foo" [] rfl]
  rfl

/-- Witness for C6: calling `my-param-tool` without its `id` argument
produces exactly the error the MCP test expects, echoing the id. -/
theorem mcp_tools_call_missing_param_witness :
    toolsCall mcpToolMap mcpSvcMap [] (.str "invoke-without-parameter")
        "my-param-tool" [("name", .jstr "Alice")] =
      .err (.str "invoke-without-parameter")
        { code := -32602,
          message := "provided parameters were invalid: parameter \"id\" is required" } := by
  have h := mcp_tools_call_missing_param mcpToolMap mcpSvcMap []
    (.str "invoke-without-parameter") "my-param-tool" [("name", .jstr "Alice")]
    paramTool { pname := "id", description := "user id" } rfl rfl rfl
  rw [h.2.2]
  rfl

/-- Witness for C7: calling `my-auth-required-tool` with no credential
headers produces exactly the `-32600` unauthorized error, echoing the
id. -/
theorem mcp_tools_call_unauthorized_witness :
    toolsCall mcpToolMap mcpSvcMap [] (.str "invoke my-auth-required-tool")
        "my-auth-required-tool" [] =
      .err (.str "invoke my-auth-required-tool")
        { code := -32600,
          message := "unauthorized Tool call: `authRequired` is set for the target Tool" } := by
  exact mcp_tools_call_unauthorized mcpToolMap mcpSvcMap []
    (.str "invoke my-auth-required-tool") "my-auth-required-tool" [] authRequiredTool
    rfl (by decide) rfl

/-- The `Listen` method (server.go lines 243-257): if a listener is already set,
fail with `server is already listening: <addr>` and leave the server
unchanged; otherwise attempt to open the TCP listener (whose outcome the
external `net.ListenConfig.Listen` call supplies as `netResult`), storing
it on success. -/
def Server.listen (s : Server) (netResult : Except String NetListener) :
    Except String Unit × Server :=
  match s.listener with
  | some l => (.error ("server is already listening: " ++ l.addr), s)
  | none =>
    match netResult with
    | .error e =>
      (.error ("failed to open listener for " ++ goQuote s.addr ++ ": " ++ e), s)
    | .ok l => (.ok (), { s with listener := some l })

/-- C9: calling `Listen` on a server whose listener is already set returns
the `server is already listening: <addr>` error and does not replace the
listener; and after any successful `Listen`, a second `Listen` fails the
same way — `Listen` succeeds at most once per server. -/
theorem server_listen_at_most_once (s : Server) (r r2 : Except String NetListener) :
    (∀ l, s.listener = some l →
      Server.listen s r = (.error ("server is already listening: " ++ l.addr), s)) ∧
    (∀ u, (Server.listen s r).1 = .ok u →
      ∃ l2, ((Server.listen s r).2).listener = some l2 ∧
        Server.listen (Server.listen s r).2 r2 =
          (.error ("server is already listening: " ++ l2.addr),
           (Server.listen s r).2)) := by
  constructor
  · intro l h
    rw [Server.listen.eq_def, h]
  · intro u hu
    cases hl : s.listener with
    | some l =>
      have hs : Server.listen s r =
          (.error ("server is already listening: " ++ l.addr), s) := by
        rw [Server.listen.eq_def, hl]
      rw [hs] at hu
      exact absurd hu (by simp)
    | none =>
      cases hr : r with
      | error e =>
        have hs : Server.listen s r =
            (.error ("failed to open listener for " ++ goQuote s.addr ++ ": " ++ e), s) := by
          rw [Server.listen.eq_def, hl, hr]
        rw [hs] at hu
        exact absurd hu (by simp)
      | ok l =>
        subst hr
        have hs : Server.listen s (.ok l) = (.ok (), { s with listener := some l }) := by
          rw [Server.listen.eq_def, hl]
        refine ⟨l, ?_, ?_⟩
        · rw [hs]
        · rw [hs]
          rfl

/-- A server that already holds a listener on `127.0.0.1:5000`. -/
def listeningServer : Server :=
  { emptyServer with
    addr := "127.0.0.1:5000",
    listener := some ⟨"127.0.0.1:5000"⟩ }

/-- Witness for C9: a second `Listen` on an already-listening server fails
with the expected message and leaves the server unchanged. -/
theorem server_listen_at_most_once_witness :
    Server.listen listeningServer (.ok { addr := "0.0.0.0:9" }) =
      (.error "server is already listening: 127.0.0.1:5000", listeningServer) := by
  have h := (server_listen_at_most_once listeningServer
    (.ok ⟨"0.0.0.0:9"⟩) (.ok ⟨"0.0.0.0:9"⟩)).1 ⟨"127.0.0.1:5000"⟩ rfl
  exact h

/-- The decoded tool configuration the YAML parsing tests compare against
(`bigtable.Config`): `authRequired` is a plain list, never absent. -/
structure ParsedToolConfig where
  name : String
  kind : String
  source : String
  description : String
  statement : String
  authRequired : List String
  parameters : List Param
  templateParameters : List Param
  deriving DecidableEq

/-- A raw YAML document for one tool; optional fields are `none` when the
document omits them. -/
structure ToolYamlDoc where
  kind : String
  source : String
  description : String
  statement : String
  authRequiredField : Option (List String)
  parametersField : List Param
  templateParametersField : Option (List Param)

/-- Modelled from the spec: the YAML decoding of a tool configuration is
not in the visible source (only `TestParseFromYamlBigtable`, which tests
it, is). An omitted optional field decodes to the empty list, as the
tests' expected `AuthRequired: []string{}` pins down. -/
def decodeToolConfig (n : String) (d : ToolYamlDoc) : ParsedToolConfig :=
  { name := n, kind := d.kind, source := d.source, description := d.description,
    statement := d.statement,
    authRequired := d.authRequiredField.getD [],
    parameters := d.parametersField,
    templateParameters := d.templateParametersField.getD [] }

/-- C10: decoding a tool configuration from YAML that omits the
`authRequired` field yields a config whose `AuthRequired` is the empty
list (never absent), so every parsed tool has a well-defined, possibly
empty, `AuthRequired` set. -/
theorem parsed_tool_config_auth_required_default (n : String) (d : ToolYamlDoc)
    (h : d.authRequiredField = none) :
    (decodeToolConfig n d).authRequired = [] := by
  simp [decodeToolConfig, h]

/-- The YAML document of `TestParseFromYamlBigtable`'s basic example,
which omits `authRequired`. -/
def bigtableYamlDoc : ToolYamlDoc :=
  { kind := "bigtable-sql", source := "my-pg-instance",
    description := "some description",
    statement := "SELECT * FROM SQL_STATEMENT;\n",
    authRequiredField := none,
    parametersField := [{ pname := "country", description := "some description" }],
    templateParametersField := none }

/-- Witness for C10: the bigtable example document omits `authRequired`
and decodes to the empty list. -/
theorem parsed_tool_config_auth_required_default_witness :
    bigtableYamlDoc.authRequiredField = none ∧
    (decodeToolConfig "example_tool" bigtableYamlDoc).authRequired = [] :=
  ⟨rfl, parsed_tool_config_auth_required_default "example_tool" bigtableYamlDoc rfl⟩

/-! ### Concrete sanity checks mirroring the integration tests -/

example :
    authGate mcpSvcMap ["my-google-auth"] [("my-google-auth_token", "valid-token")] =
      some [("sub", "alice")] := rfl

example :
    authGate mcpSvcMap ["my-google-auth"] [("my-google-auth_token", "INVALID_TOKEN")] =
      none := rfl

example :
    httpInvoke mcpToolMap mcpSvcMap [] "my-param-tool"
      [("id", .jnum 3), ("name", .jstr "Alice")] = .ok "[[3,\"Alice\"]]" := rfl

example :
    toolsCall mcpToolMap mcpSvcMap [] (.str "my-param-tool") "my-param-tool"
      [("id", .jnum 3), ("name", .jstr "Alice")] =
      .ok (.str "my-param-tool") "[[3,\"Alice\"]]" := rfl
